import Mathlib

/-!
Shallow embedding of the process-supervision core of motioneye/server.py:
the Daemon class (daemonize, del_pid, running, start, stop), the
start_motion health-check scheduler and its checker callback, and the
startup/shutdown orchestration in run.  External collaborators
(motionctl, config, smbctl, the OS calls os.fork and os.kill, file reads)
are modelled as oracle parameters; a raised Python exception is the exn
value of PyResult.
-/

namespace MotionEye

/-- Result of a Python call that can raise: either a value or a raised
exception.  The supervised code only ever distinguishes raised from not
raised, never the exception class, so no payload is carried. -/
inductive PyResult (α : Type) where
  | ok (a : α)
  | exn
deriving DecidableEq

/-- Outcome of an os.kill call as discriminated by Daemon.stop, lines
137-150: success, an OSError whose message contains No such process, or
any other error. -/
inductive KillResult where
  | ok
  | noSuchProcess
  | otherError
deriving DecidableEq

/-- Python truthiness of the Option Int value returned by Daemon.running,
as tested by the statements if self.running() (line 117) and if not pid
(line 127): None and the integer 0 are falsy, every other integer is
truthy. -/
def pyTruthy : Option Int → Bool
  | none => false
  | some p => if p = 0 then false else true

/-- Whitespace characters removed by the Python str.strip method with no
argument (the ASCII ones). -/
def isPySpace (ch : Char) : Bool :=
  ch = ' ' || ch = '\t' || ch = '\n' || ch = '\r' || ch = '\x0b' || ch = '\x0c'

/-- Strip leading and trailing whitespace from a character list. -/
def pyStripChars (l : List Char) : List Char :=
  ((l.dropWhile isPySpace).reverse.dropWhile isPySpace).reverse

/-- Accumulate the decimal value of a digit run, with none standing for
a non-digit character (a raised ValueError). -/
def digitsCore : List Char → Nat → Option Nat
  | [], acc => some acc
  | ch :: rest, acc =>
    if ch.isDigit then digitsCore rest (acc * 10 + (ch.toNat - 48)) else none

/-- Decimal value of a nonempty digit run. -/
def digitsToNat : List Char → Option Nat
  | [] => none
  | l => digitsCore l 0

/-- Modelling of the Python expression int(s.strip()) for plain decimal
content (line 104): strip surrounding whitespace, then parse an
optionally signed decimal integer, with none standing for a raised
ValueError. -/
def pyInt (s : String) : Option Int :=
  match pyStripChars s.data with
  | '-' :: rest => (digitsToNat rest).map (fun n => -(n : Int))
  | '+' :: rest => (digitsToNat rest).map (fun n => (n : Int))
  | l => (digitsToNat l).map (fun n => (n : Int))

namespace Daemon

/-- Daemon.running, lines 101-114.  The first try block opens, reads and
parses the pid file and returns None on any failure; the second probes
the parsed pid with os.kill(pid, 0) and returns None on any failure.
readPid is the outcome of open plus read, parse models int applied to
the stripped content, and signalOk pid is the outcome of os.kill(pid, 0).
The result is wrapped in PyResult so that the absence of an escaping
exception is a provable statement rather than a typing accident. -/
def running (readPid : PyResult String) (parse : String → Option Int)
    (signalOk : Int → PyResult Unit) : PyResult (Option Int) :=
  match readPid with
  | .exn => .ok none
  | .ok s =>
    match parse s with
    | none => .ok none
    | some pid =>
      match signalOk pid with
      | .ok _ => .ok (some pid)
      | .exn => .ok none

/-- Observable actions performed by Daemon.start and Daemon.daemonize,
lines 56-123, in source order. -/
inductive DEv where
  | runningQuery
  | stderrAlreadyRunning
  | forkCall
  | setsidCall
  | umaskCall
  | redirectStdio
  | registerDelPid
  | writePidFile
  | stdoutStarted
  | stderrForkFailed
  | runCallback
deriving DecidableEq

/-- Whether an os.fork call returns normally or raises OSError. -/
inductive ForkOutcome where
  | ok
  | raised
deriving DecidableEq

/-- Result of Daemon.daemonize, lines 56-92, viewed from the surviving
process lineage.  events lists the calls made along the lineage that
keeps executing; failExit is the sys.exit argument when a fork failure
aborts that lineage; shellStatus is the exit status observed by the
invoking shell (the first fork parent exits 0 on line 60 as soon as the
first fork succeeds, so a second-fork failure is invisible to the
shell). -/
structure DaemonizeResult where
  events : List DEv
  failExit : Option Int
  shellStatus : Int
deriving DecidableEq

/-- Daemon.daemonize, lines 56-92: double fork with sys.exit(-1) on a
fork failure (lines 62-64 and 75-77), setsid and umask between the
forks, then stdio redirection, atexit registration of del_pid, and the
pid file write in the grandchild. -/
def daemonize (f1 f2 : ForkOutcome) : DaemonizeResult :=
  match f1 with
  | .raised =>
    { events := [.forkCall, .stderrForkFailed]
      failExit := some (-1)
      shellStatus := -1 }
  | .ok =>
    match f2 with
    | .raised =>
      { events := [.forkCall, .setsidCall, .umaskCall, .forkCall, .stderrForkFailed]
        failExit := some (-1)
        shellStatus := 0 }
    | .ok =>
      { events := [.forkCall, .setsidCall, .umaskCall, .forkCall, .redirectStdio,
                   .registerDelPid, .writePidFile]
        failExit := none
        shellStatus := 0 }

/-- Result of Daemon.start: the actions of the surviving lineage, the
sys.exit argument if the lineage aborted, and the status seen by the
invoking shell. -/
structure StartResult where
  events : List DEv
  exitStatus : Option Int
  shellStatus : Int
deriving DecidableEq

/-- Daemon.start, lines 116-123: if self.running() is truthy, write
stderr and sys.exit(-1); otherwise daemonize, write the started message
and invoke run_callback.  runningResult is the value returned by the
liveness query. -/
def start (runningResult : Option Int) (f1 f2 : ForkOutcome) : StartResult :=
  if pyTruthy runningResult then
    { events := [.runningQuery, .stderrAlreadyRunning]
      exitStatus := some (-1)
      shellStatus := -1 }
  else
    let d := daemonize f1 f2
    match d.failExit with
    | some c =>
      { events := .runningQuery :: d.events
        exitStatus := some c
        shellStatus := d.shellStatus }
    | none =>
      { events := .runningQuery :: (d.events ++ [.stdoutStarted, .runCallback])
        exitStatus := none
        shellStatus := d.shellStatus }

/-- Outcome of the bounded polling loop of Daemon.stop, lines 137-151:
the process disappeared (break after No such process), an unrecognized
OSError caused sys.exit(-11), or all iterations ran without a break. -/
inductive PollOutcome where
  | stopped
  | errorExit
  | exhausted
deriving DecidableEq

/-- The for i in range(n) polling loop of Daemon.stop, starting at
attempt index i with n iterations left.  k gives the outcome of the
os.kill(pid, 0) probe at each attempt; on success the loop sleeps and
continues, on a No such process error it breaks, on any other OSError it
exits. -/
def pollLoop (k : Nat → KillResult) : Nat → Nat → PollOutcome
  | _, 0 => .exhausted
  | i, n + 1 =>
    match k i with
    | .ok => pollLoop k (i + 1) n
    | .noSuchProcess => .stopped
    | .otherError => .errorExit

/-- Observable outcome of Daemon.stop, lines 125-158. -/
structure StopResult where
  exitStatus : Option Int
  sigtermAttempted : Bool
  stderrTerminateFailed : Bool
  delPidInvoked : Bool
  stdoutStopped : Bool
  sigkillCount : Nat
  stderrKillFailed : Bool
deriving DecidableEq

/-- Daemon.stop, lines 125-158: refuse with sys.exit(-1) when the
liveness query result is falsy; otherwise attempt SIGTERM (exceptions
caught and logged), poll os.kill(pid, 0) up to 50 times, and on the
for-else path (loop exhausted without a break) send SIGKILL once inside
a try block.  del_pid and the success message run only on the break
path. -/
def stop (runningResult : Option Int) (sigtermRes : KillResult)
    (k : Nat → KillResult) (sigkillRes : KillResult) : StopResult :=
  if pyTruthy runningResult = false then
    { exitStatus := some (-1)
      sigtermAttempted := false
      stderrTerminateFailed := false
      delPidInvoked := false
      stdoutStopped := false
      sigkillCount := 0
      stderrKillFailed := false }
  else
    let termFailed := match sigtermRes with
      | .ok => false
      | _ => true
    match pollLoop k 0 50 with
    | .stopped =>
      { exitStatus := none
        sigtermAttempted := true
        stderrTerminateFailed := termFailed
        delPidInvoked := true
        stdoutStopped := true
        sigkillCount := 0
        stderrKillFailed := false }
    | .errorExit =>
      { exitStatus := some (-11)
        sigtermAttempted := true
        stderrTerminateFailed := termFailed
        delPidInvoked := false
        stdoutStopped := false
        sigkillCount := 0
        stderrKillFailed := false }
    | .exhausted =>
      { exitStatus := none
        sigtermAttempted := true
        stderrTerminateFailed := termFailed
        delPidInvoked := false
        stdoutStopped := false
        sigkillCount := 1
        stderrKillFailed := match sigkillRes with
          | .ok => false
          | _ => true }

end Daemon

/-- Poll oracle for a process that stays alive for the first 12 probe
attempts and has disappeared from the 13th probe on. -/
def pollGone12 : Nat → KillResult := fun j =>
  if j < 12 then .ok else .noSuchProcess

/-- Poll oracle for a process that never disappears. -/
def pollAlive : Nat → KillResult := fun _ => .ok

/-- Poll oracle for a probe that keeps failing with an unrecognized
OSError. -/
def pollErr : Nat → KillResult := fun _ => .otherError

/-- Outcomes of the collaborator calls made by one firing of the checker
callback defined inside start_motion, lines 366-382. -/
structure CheckerEnv where
  runningQ : PyResult Bool
  startedQ : PyResult Bool
  camerasQ : PyResult Bool
  startOp : PyResult Unit
deriving DecidableEq

/-- Observable outcome of one firing of the checker callback: whether an
exception escaped the callback, whether motionctl.start was invoked,
whether a start failure was logged by the except clause, and the delay
of the add_timeout rescheduling call when it was reached. -/
structure CheckerResult where
  escaped : Bool
  startInvoked : Bool
  startFailLogged : Bool
  rescheduled : Option Nat
deriving DecidableEq

/-- The checker callback, lines 366-382.  The condition
not motionctl.running() and motionctl.started() and
config.get_enabled_local_motion_cameras() is evaluated left to right
with Python short-circuiting and outside any try block, so an exception
from any of the three queries escapes the callback before the final
add_timeout.  Only motionctl.start() is wrapped in try and except.  The
add_timeout call at the end reschedules the callback after
settings.MOTION_CHECK_INTERVAL seconds. -/
def checker (interval : Nat) (env : CheckerEnv) : CheckerResult :=
  match env.runningQ with
  | .exn =>
    { escaped := true, startInvoked := false, startFailLogged := false, rescheduled := none }
  | .ok true =>
    { escaped := false, startInvoked := false, startFailLogged := false
      rescheduled := some interval }
  | .ok false =>
    match env.startedQ with
    | .exn =>
      { escaped := true, startInvoked := false, startFailLogged := false, rescheduled := none }
    | .ok false =>
      { escaped := false, startInvoked := false, startFailLogged := false
        rescheduled := some interval }
    | .ok true =>
      match env.camerasQ with
      | .exn =>
        { escaped := true, startInvoked := false, startFailLogged := false, rescheduled := none }
      | .ok false =>
        { escaped := false, startInvoked := false, startFailLogged := false
          rescheduled := some interval }
      | .ok true =>
        { escaped := false
          startInvoked := true
          startFailLogged := match env.startOp with
            | .exn => true
            | .ok _ => false
          rescheduled := some interval }

/-- Observable outcome of start_motion itself, lines 360-392. -/
structure StartMotionResult where
  startAttempted : Bool
  startFailLogged : Bool
  armedDelays : List Nat
deriving DecidableEq

/-- start_motion, lines 384-392: attempt motionctl.start inside a try
block that logs any exception, then unconditionally call
io_loop.add_timeout with a delay of settings.MOTION_CHECK_INTERVAL
seconds to arm the checker; there is no test of the interval value
anywhere in the function. -/
def start_motion (interval : Nat) (startOutcome : PyResult Unit) : StartMotionResult :=
  { startAttempted := true
    startFailLogged := match startOutcome with
      | .exn => true
      | .ok _ => false
    armedDelays := [interval] }

/-- Steps of the run function, lines 417-486, that the orchestration
claims are about. -/
inductive Ev where
  | confSignals
  | testReqs
  | makeMedia
  | updateMounts
  | motionStart
  | armHealthCheck
  | cleanupStart
  | wsswitchStart
  | tasksStart
  | mjpgStart
  | smbStart
  | httpListen
  | ioloopStart
  | tasksStop
  | cleanupStop
  | motionStop
  | smbStop
deriving DecidableEq

/-- The two actions of start_motion inside run: the initial
motionctl.start attempt followed immediately by arming the health
check. -/
def start_motion_events : List Ev := [.motionStart, .armHealthCheck]

/-- The startup half of run, lines 417-469, as the ordered list of steps
executed: configure_signals, test_requirements, make_media_folders; when
SMB_SHARES is set, smbctl.update_mounts and, only if its second result
is truthy, start_motion; otherwise start_motion unconditionally; then
cleanup.start if CLEANUP_INTERVAL, wsswitch.start, tasks.start,
mjpgclient.start if MJPG_CLIENT_TIMEOUT, smbctl.start if SMB_SHARES;
finally application.listen and io_loop.start. -/
def runStartTrace (smbShares cleanupInterval mjpgTimeout mountsStart : Bool) : List Ev :=
  [.confSignals, .testReqs, .makeMedia]
    ++ (if smbShares then
          .updateMounts :: (if mountsStart then start_motion_events else [])
        else start_motion_events)
    ++ (if cleanupInterval then [.cleanupStart] else [])
    ++ [.wsswitchStart, .tasksStart]
    ++ (if mjpgTimeout then [.mjpgStart] else [])
    ++ (if smbShares then [.smbStart] else [])
    ++ [.httpListen, .ioloopStart]

/-- The shutdown half of run, lines 471-484, as the ordered list of stop
steps it invokes: tasks.stop, then cleanup.stop if cleanup.running(),
then motionctl.stop if motionctl.running(), then smbctl.stop if
SMB_SHARES. -/
def runStopSteps (smbShares cleanupRunning motionRunning : Bool) : List Ev :=
  .tasksStop
    :: ((if cleanupRunning then [.cleanupStop] else [])
      ++ (if motionRunning then [.motionStop] else [])
      ++ (if smbShares then [.smbStop] else []))

/-- Execution of a sequence of stop steps when a step may raise.  The
shutdown code of run wraps none of its stop calls in try blocks, so the
first raising step is invoked and every later step is skipped as the
exception propagates. -/
def execUntilRaise (failsAt : Ev → Bool) : List Ev → List Ev
  | [] => []
  | e :: rest => if failsAt e then [e] else e :: execUntilRaise failsAt rest

/-- The start step that each stop step of run undoes. -/
def stopToStart : Ev → Ev
  | .tasksStop => .tasksStart
  | .cleanupStop => .cleanupStart
  | .motionStop => .motionStart
  | .smbStop => .smbStart
  | e => e

/-- Start steps whose subsystem also has a stop step in run. -/
def hasStopOp : Ev → Bool
  | .motionStart => true
  | .cleanupStart => true
  | .tasksStart => true
  | .smbStart => true
  | _ => false

/-- Start steps of supporting subsystems, including the mount
reconciliation. -/
def isSubsysStartEv : Ev → Bool
  | .updateMounts => true
  | .motionStart => true
  | .cleanupStart => true
  | .wsswitchStart => true
  | .tasksStart => true
  | .mjpgStart => true
  | .smbStart => true
  | _ => false

/-- Index of the first occurrence of a step in a trace (length of the
trace when absent). -/
def posOf (e : Ev) : List Ev → Nat
  | [] => 0
  | x :: xs => if x = e then 0 else posOf e xs + 1

/-- Failure injection that makes exactly the tasks stop step raise. -/
def failTasksStop : Ev → Bool
  | .tasksStop => true
  | _ => false

/-- Failure injection with no failing step. -/
def noStopFails : Ev → Bool := fun _ => false

/-- When every probe among the next n attempts reports the process
alive, the polling loop finishes all iterations without a break. -/
theorem pollLoop_exhausted_of_all_ok (k : Nat → KillResult) :
    ∀ (n i : Nat), (∀ j, j < n → k (i + j) = .ok) →
      Daemon.pollLoop k i n = .exhausted := by
  intro n
  induction n with
  | zero => intro i _; rfl
  | succ m ih =>
    intro i h
    have h0 : k i = .ok := by simpa using h 0 (Nat.succ_pos m)
    have step : Daemon.pollLoop k i (m + 1) = Daemon.pollLoop k (i + 1) m := by
      simp only [Daemon.pollLoop, h0]
    rw [step]
    apply ih
    intro j hj
    have e : i + 1 + j = i + (j + 1) := by omega
    rw [e]
    exact h (j + 1) (by omega)

/-- When the process is alive for the first d probes and gone at probe
d, with d inside the iteration bound, the polling loop breaks with the
stopped outcome. -/
theorem pollLoop_stopped_of_first_gone (k : Nat → KillResult) :
    ∀ (d n i : Nat), d < n → k (i + d) = .noSuchProcess →
      (∀ e, e < d → k (i + e) = .ok) → Daemon.pollLoop k i n = .stopped := by
  intro d
  induction d with
  | zero =>
    intro n i hdn hg _
    cases n with
    | zero => omega
    | succ m =>
      have h0 : k i = .noSuchProcess := by simpa using hg
      simp only [Daemon.pollLoop, h0]
  | succ e ih =>
    intro n i hdn hg hok
    cases n with
    | zero => omega
    | succ m =>
      have h0 : k i = .ok := by simpa using hok 0 (Nat.succ_pos e)
      have step : Daemon.pollLoop k i (m + 1) = Daemon.pollLoop k (i + 1) m := by
        simp only [Daemon.pollLoop, h0]
      rw [step]
      apply ih m (i + 1) (by omega)
      · have eq1 : i + 1 + e = i + (e + 1) := by omega
        rw [eq1]
        exact hg
      · intro e2 he2
        have eq2 : i + 1 + e2 = i + (e2 + 1) := by omega
        rw [eq2]
        exact hok (e2 + 1) (by omega)

/-- Claim C1: a single firing of the health-check callback invokes the
external-process start operation if and only if the process is not
alive, it was previously started by this supervisor, and some workload
currently requires it; the equation over all Boolean query outcomes
covers all eight combinations, and it holds for every outcome of the
start attempt itself. -/
theorem checker_starts_iff_dead_started_required :
    ∀ (interval : Nat) (alive started required : Bool) (so : PyResult Unit),
      (checker interval ⟨.ok alive, .ok started, .ok required, so⟩).startInvoked
        = (!alive && started && required) := by
  intro interval alive started required so
  cases alive <;> cases started <;> cases required <;> rfl

/-- Claim C2 counterexample: with SMB shares configured, the stop steps
of run are not the exact reverse of the start order of the stopped
subsystems (the smb stop runs last although the smb background start
also ran last), and the stop steps are not fault-isolated: with a
failure injected into the tasks stop step, the cleanup stop step, though
scheduled, never executes. -/
theorem run_stop_not_reverse_not_isolated :
    (runStopSteps true true true).map stopToStart
        ≠ ((runStartTrace true true true true).filter hasStopOp).reverse
    ∧ Ev.cleanupStop ∈ runStopSteps true true true
    ∧ Ev.cleanupStop ∉ execUntilRaise failTasksStop (runStopSteps true true true) := by
  decide

/-- Claim C2 amended: run executes its stop steps in the fixed order
tasks, cleanup if running, motion if running, smb mounts if configured;
with SMB shares disabled this is exactly the reverse of the startup
order of the stopped subsystems; the steps are not fault-isolated: with
no failing step all steps execute in order, but a failure injected into
the first stop step leaves every later step unexecuted. -/
theorem run_stop_order_amended :
    ∀ (cu mj ms smb cr mr : Bool),
      (runStopSteps false cu true).map stopToStart
          = ((runStartTrace false cu mj ms).filter hasStopOp).reverse
      ∧ execUntilRaise noStopFails (runStopSteps smb cr mr) = runStopSteps smb cr mr
      ∧ execUntilRaise failTasksStop (runStopSteps smb cr mr) = [Ev.tasksStop] := by
  decide

/-- Claim C3 counterexample: in the startup sequence the health check is
armed inside the external-process start step, strictly before the HTTP
listener is started, and arming it is not the final startup step. -/
theorem arm_check_before_http_listener :
    Ev.armHealthCheck ∈ runStartTrace false true true false
    ∧ posOf Ev.armHealthCheck (runStartTrace false true true false)
        < posOf Ev.httpListen (runStartTrace false true true false)
    ∧ (runStartTrace false true true false).getLast? ≠ some Ev.armHealthCheck := by
  decide

/-- Claim C3 amended: for every configuration, the HTTP listener is
bound and started only after every other subsystem start step has
executed and is followed only by starting the event loop; the recurring
health check is armed exactly when the external-process start step runs,
and when it is armed this happens before the HTTP listener starts, not
as the final startup step. -/
theorem run_start_order_amended :
    ∀ (smb cu mj ms : Bool),
      (∀ e ∈ runStartTrace smb cu mj ms, isSubsysStartEv e = true →
          posOf e (runStartTrace smb cu mj ms)
            < posOf Ev.httpListen (runStartTrace smb cu mj ms))
      ∧ (Ev.armHealthCheck ∈ runStartTrace smb cu mj ms
          ↔ Ev.motionStart ∈ runStartTrace smb cu mj ms)
      ∧ (Ev.armHealthCheck ∈ runStartTrace smb cu mj ms →
          posOf Ev.armHealthCheck (runStartTrace smb cu mj ms)
            < posOf Ev.httpListen (runStartTrace smb cu mj ms))
      ∧ (runStartTrace smb cu mj ms).getLast? = some Ev.ioloopStart
      ∧ Ev.httpListen ∈ runStartTrace smb cu mj ms := by
  decide

/-- Witness for the amended claim C3 at a concrete configuration. -/
theorem run_start_order_amended_witness :
    Ev.armHealthCheck ∈ runStartTrace true true true true
    ∧ posOf Ev.armHealthCheck (runStartTrace true true true true)
        < posOf Ev.httpListen (runStartTrace true true true true) :=
  ⟨by decide, (run_start_order_amended true true true true).2.2.1 (by decide)⟩

/-- Claim C4 counterexample: with the configured health-check interval
equal to zero, start_motion still arms the recurring check, with a
zero-second delay, and a clean firing of the callback reschedules it
again with the same zero delay; health checking is not skipped. -/
theorem check_armed_despite_zero_interval :
    (start_motion 0 (.ok ())).armedDelays = [0]
    ∧ (start_motion 0 (.ok ())).armedDelays ≠ []
    ∧ (checker 0 ⟨.ok true, .ok true, .ok true, .ok ()⟩).rescheduled = some 0 := by
  decide

/-- Claim C4 amended: start_motion arms the recurring health check
unconditionally, with the configured interval as the delay, for every
interval value including zero, and every firing of the callback whose
queries return normally reschedules it with the same interval; there is
no disabled case. -/
theorem start_motion_always_arms :
    ∀ (interval : Nat) (so : PyResult Unit) (r s c : Bool) (stc : PyResult Unit),
      (start_motion interval so).armedDelays = [interval]
      ∧ (checker interval ⟨.ok r, .ok s, .ok c, stc⟩).rescheduled = some interval := by
  intro interval so r s c stc
  refine ⟨rfl, ?_⟩
  cases r <;> cases s <;> cases c <;> rfl

/-- Claim C5 counterexample: when the liveness query raises, the
exception escapes the health-check callback and the callback does not
reschedule itself, so a failure in one firing prevents all future
firings. -/
theorem checker_query_exception_escapes :
    (checker 7 ⟨.exn, .ok true, .ok true, .ok ()⟩).escaped = true
    ∧ (checker 7 ⟨.exn, .ok true, .ok true, .ok ()⟩).rescheduled = none := by
  decide

/-- Claim C5 amended: only the restart attempt is guarded inside the
callback: when the three queries return normally, no exception escapes
and the callback reschedules itself after the configured interval
regardless of the restart outcome; but an exception raised by the
liveness query, the started-flag query, or the workload query escapes
the callback and no rescheduling happens. -/
theorem checker_exception_handling_amended :
    ∀ (interval : Nat) (r s c : Bool) (so : PyResult Unit) (q2 q3 : PyResult Bool),
      (checker interval ⟨.ok r, .ok s, .ok c, so⟩).escaped = false
      ∧ (checker interval ⟨.ok r, .ok s, .ok c, so⟩).rescheduled = some interval
      ∧ (checker interval ⟨.exn, q2, q3, so⟩).escaped = true
      ∧ (checker interval ⟨.exn, q2, q3, so⟩).rescheduled = none
      ∧ (checker interval ⟨.ok false, .exn, q3, so⟩).escaped = true
      ∧ (checker interval ⟨.ok false, .exn, q3, so⟩).rescheduled = none
      ∧ (checker interval ⟨.ok false, .ok true, .exn, so⟩).escaped = true
      ∧ (checker interval ⟨.ok false, .ok true, .exn, so⟩).rescheduled = none := by
  intro interval r s c so q2 q3
  refine ⟨?_, ?_, rfl, rfl, rfl, rfl, rfl, rfl⟩ <;>
    cases r <;> cases s <;> cases c <;> rfl

/-- Claim C6: when stop finds a live pid and the target process
disappears at some attempt among the 50 bounded poll attempts, stop
invokes the pid-file removal and reports success without ever sending
the forceful kill signal and without exiting with an error status; when
the process remains alive through all 50 attempts, stop sends the
forceful kill signal exactly once. -/
theorem stop_polling_outcomes :
    ∀ (pid : Int) (st sk : KillResult) (k : Nat → KillResult), pid ≠ 0 →
      (∀ d, d < 50 → k d = .noSuchProcess → (∀ e, e < d → k e = .ok) →
        (Daemon.stop (some pid) st k sk).delPidInvoked = true
        ∧ (Daemon.stop (some pid) st k sk).stdoutStopped = true
        ∧ (Daemon.stop (some pid) st k sk).sigkillCount = 0
        ∧ (Daemon.stop (some pid) st k sk).exitStatus = none)
      ∧ ((∀ d, d < 50 → k d = .ok) →
        (Daemon.stop (some pid) st k sk).sigkillCount = 1) := by
  intro pid st sk k hpid
  have ht : pyTruthy (some pid) = true := by simp [pyTruthy, hpid]
  constructor
  · intro d hd hg hok
    have hp : Daemon.pollLoop k 0 50 = .stopped := by
      apply pollLoop_stopped_of_first_gone k d 50 0 hd
      · simpa using hg
      · intro e he
        simpa using hok e he
    simp [Daemon.stop, ht, hp]
  · intro hall
    have hp : Daemon.pollLoop k 0 50 = .exhausted := by
      apply pollLoop_exhausted_of_all_ok k 50 0
      intro j hj
      simpa using hall j hj
    simp [Daemon.stop, ht, hp]

/-- Witness for claim C6: a process that disappears after the 12th of
the 50 poll attempts, and a process that never disappears. -/
theorem stop_polling_outcomes_witness :
    ((Daemon.stop (some 1234) .ok pollGone12 .ok).delPidInvoked = true
      ∧ (Daemon.stop (some 1234) .ok pollGone12 .ok).stdoutStopped = true
      ∧ (Daemon.stop (some 1234) .ok pollGone12 .ok).sigkillCount = 0
      ∧ (Daemon.stop (some 1234) .ok pollGone12 .ok).exitStatus = none)
    ∧ (Daemon.stop (some 1234) .ok pollAlive .ok).sigkillCount = 1 :=
  ⟨(stop_polling_outcomes 1234 .ok .ok pollGone12 (by decide)).1 12 (by decide)
      (by decide) (by decide),
   (stop_polling_outcomes 1234 .ok .ok pollAlive (by decide)).2 (by decide)⟩

/-- Claim C7: the liveness query returns a pid exactly when the pid file
is readable, its content parses as an integer, and the zero-effect
signal probe of that integer succeeds; in every other case it returns
absent, and no exception ever escapes to the caller. -/
theorem running_never_raises_and_iff :
    ∀ (readPid : PyResult String) (parse : String → Option Int)
      (signalOk : Int → PyResult Unit),
      (∃ v, Daemon.running readPid parse signalOk = .ok v)
      ∧ ∀ pid : Int,
          (Daemon.running readPid parse signalOk = .ok (some pid)
            ↔ ∃ s, readPid = .ok s ∧ parse s = some pid ∧ signalOk pid = .ok ()) := by
  intro rp parse sg
  constructor
  · cases rp with
    | exn => exact ⟨none, rfl⟩
    | ok s =>
      cases hp : parse s with
      | none => exact ⟨none, by simp [Daemon.running, hp]⟩
      | some q =>
        cases hk : sg q with
        | ok u => exact ⟨some q, by simp [Daemon.running, hp, hk]⟩
        | exn => exact ⟨none, by simp [Daemon.running, hp, hk]⟩
  · intro pid
    constructor
    · intro h
      cases rp with
      | exn => simp [Daemon.running] at h
      | ok s =>
        cases hp : parse s with
        | none => simp [Daemon.running, hp] at h
        | some q =>
          cases hk : sg q with
          | exn => simp [Daemon.running, hp, hk] at h
          | ok u =>
            simp [Daemon.running, hp, hk] at h
            subst h
            cases u
            exact ⟨s, rfl, hp, hk⟩
    · rintro ⟨s, hs, hp, hk⟩
      subst hs
      simp [Daemon.running, hp, hk]

/-- Witness for claim C7 at a concrete readable pid file. -/
theorem running_witness :
    Daemon.running (.ok "4321") pyInt (fun _ => .ok ()) = .ok (some 4321) :=
  ((running_never_raises_and_iff (.ok "4321") pyInt (fun _ => .ok ())).2 4321).mpr
    ⟨"4321", rfl, by decide, rfl⟩

/-- Claim C8 counterexample: when the pid file contains 0 and the
zero-effect signal probe succeeds, the liveness query reports the pid 0,
yet the background start command does not refuse: the falsy value 0
passes the truthiness test, so start forks, daemonizes, and overwrites
the pid file. -/
theorem start_proceeds_on_zero_pid :
    Daemon.running (.ok "0") pyInt (fun _ => .ok ()) = .ok (some 0)
    ∧ Daemon.DEv.forkCall ∈ (Daemon.start (some 0) .ok .ok).events
    ∧ Daemon.DEv.writePidFile ∈ (Daemon.start (some 0) .ok .ok).events
    ∧ (Daemon.start (some 0) .ok .ok).exitStatus = none := by
  refine ⟨by decide, by decide, by decide, by decide⟩

/-- Claim C8 amended: when the liveness query returns a nonzero pid, the
background start command refuses with exit status -1 before performing
any fork or pid-file write, leaving the existing pid file unchanged;
only a reported pid of exactly 0 is treated as not running by the
truthiness test. -/
theorem start_refuses_when_running_amended :
    ∀ (p : Int) (f1 f2 : Daemon.ForkOutcome), p ≠ 0 →
      (Daemon.start (some p) f1 f2).exitStatus = some (-1)
      ∧ Daemon.DEv.forkCall ∉ (Daemon.start (some p) f1 f2).events
      ∧ Daemon.DEv.writePidFile ∉ (Daemon.start (some p) f1 f2).events
      ∧ (Daemon.start (some p) f1 f2).events
          = [Daemon.DEv.runningQuery, Daemon.DEv.stderrAlreadyRunning] := by
  intro p f1 f2 hp
  have ht : pyTruthy (some p) = true := by simp [pyTruthy, hp]
  simp [Daemon.start, ht]

/-- Witness for the amended claim C8 at a concrete nonzero pid. -/
theorem start_refuses_when_running_amended_witness :
    (Daemon.start (some 1234) .ok .ok).exitStatus = some (-1)
    ∧ Daemon.DEv.forkCall ∉ (Daemon.start (some 1234) .ok .ok).events
    ∧ Daemon.DEv.writePidFile ∉ (Daemon.start (some 1234) .ok .ok).events
    ∧ (Daemon.start (some 1234) .ok .ok).events
        = [Daemon.DEv.runningQuery, Daemon.DEv.stderrAlreadyRunning] :=
  start_refuses_when_running_amended 1234 .ok .ok (by decide)

/-- Claim C9 counterexample: the failure categories do not carry
distinct exit statuses: starting while already running, stopping while
not running, and a first-fork failure all exit with the same status -1,
and the forced-kill fallback performs no exit call at all (the stop
command then finishes with status 0), so it has no non-zero status of
its own. -/
theorem exit_statuses_not_distinct :
    (Daemon.start (some 1) .ok .ok).exitStatus = some (-1)
    ∧ (Daemon.stop none .ok pollAlive .ok).exitStatus = some (-1)
    ∧ (Daemon.start none .raised .ok).exitStatus = some (-1)
    ∧ (Daemon.stop (some 1) .ok pollAlive .ok).sigkillCount = 1
    ∧ (Daemon.stop (some 1) .ok pollAlive .ok).exitStatus = none := by
  decide

/-- Claim C9 amended: start and stop finish with status 0 on success
(the background start through the first fork parent exiting 0, the
successful stop by performing no exit call); already running, not
running, and fork failure all exit with the same status -1 rather than
distinct ones; the forced-kill fallback performs no exit call and the
process finishes with status 0, reporting failure only on stderr; an
unrecognized error while polling exits with status -11. -/
theorem exit_statuses_amended :
    ∀ (f1 f2 : Daemon.ForkOutcome) (st sk : KillResult),
      (Daemon.start none .ok .ok).shellStatus = 0
      ∧ (Daemon.start none .ok .ok).exitStatus = none
      ∧ (Daemon.stop (some 1) st pollGone12 sk).exitStatus = none
      ∧ (Daemon.stop (some 1) st pollGone12 sk).stdoutStopped = true
      ∧ (Daemon.start (some 1) f1 f2).exitStatus = some (-1)
      ∧ (Daemon.stop none st pollAlive sk).exitStatus = some (-1)
      ∧ (Daemon.start none .raised f2).exitStatus = some (-1)
      ∧ (Daemon.start none .raised f2).shellStatus = -1
      ∧ (Daemon.stop (some 1) st pollAlive sk).exitStatus = none
      ∧ (Daemon.stop (some 1) st pollAlive sk).sigkillCount = 1
      ∧ (Daemon.stop (some 1) st pollErr sk).exitStatus = some (-11) := by
  intro f1 f2 st sk
  cases f1 <;> cases f2 <;> cases st <;> cases sk <;> decide

/-- Claim C10: when stop exhausts all 50 liveness poll attempts and
escalates to the forceful kill signal, the pid-file deletion action is
never invoked and no error exit is taken, so the pid file remains on
disk after the forced kill. -/
theorem forced_kill_keeps_pid_file :
    ∀ (pid : Int) (st sk : KillResult) (k : Nat → KillResult), pid ≠ 0 →
      (∀ d, d < 50 → k d = .ok) →
      (Daemon.stop (some pid) st k sk).delPidInvoked = false
      ∧ (Daemon.stop (some pid) st k sk).sigkillCount = 1
      ∧ (Daemon.stop (some pid) st k sk).exitStatus = none := by
  intro pid st sk k hpid hall
  have ht : pyTruthy (some pid) = true := by simp [pyTruthy, hpid]
  have hp : Daemon.pollLoop k 0 50 = .exhausted := by
    apply pollLoop_exhausted_of_all_ok k 50 0
    intro j hj
    simpa using hall j hj
  simp [Daemon.stop, ht, hp]

/-- Witness for claim C10 at a concrete never-disappearing process. -/
theorem forced_kill_keeps_pid_file_witness :
    (Daemon.stop (some 77) .ok pollAlive .ok).delPidInvoked = false
    ∧ (Daemon.stop (some 77) .ok pollAlive .ok).sigkillCount = 1
    ∧ (Daemon.stop (some 77) .ok pollAlive .ok).exitStatus = none :=
  forced_kill_keeps_pid_file 77 .ok .ok pollAlive (by decide) (by decide)

end MotionEye
